import Mathlib

/-!
Shallow embedding of the YouTube lifestyle-coach pipeline (`src/app.py`)
and proofs about its components: URL parsing, transcript-tier resolution,
batch aggregation, the generation retry loop, JSON cleaning/handling, and
the calendar export.
-/

/-! ## URL Parser (`extract_video_id`, src/app.py lines 14-22)

The source applies the regex `(?:v=|/)([0-9A-Za-z_-]{11}).*` with
`re.search` (leftmost match; at each position the alternative `v=` is tried
before `/`; the trailing `.*` never constrains the match). -/

/-- A character of the identifier class `[0-9A-Za-z_-]`. -/
def isIdChar (c : Char) : Bool :=
  c.isDigit || c.isUpper || c.isLower || c == '_' || c == '-'

/-- Match `[0-9A-Za-z_-]{11}` at the head of the list, returning the
11 matched characters. -/
def matchIdAt (cs : List Char) : Option (List Char) :=
  if (cs.take 11).length == 11 && (cs.take 11).all isIdChar then
    some (cs.take 11)
  else
    none

/-- Match `(?:v=|/)([0-9A-Za-z_-]{11})` at the head of the list.  The
branch `v=` is tried before `/`; when `v=` matches the two-character
marker but the identifier fails, the `/` branch cannot apply at the same
position (the first character differs), so the position fails. -/
def matchMarkerAt : List Char → Option (List Char)
  | 'v' :: '=' :: rest => matchIdAt rest
  | '/' :: rest => matchIdAt rest
  | _ => none

/-- `re.search` scan: try the pattern at each position left to right and
return the capture of the leftmost match. -/
def searchAux : List Char → Option (List Char)
  | [] => none
  | c :: rest =>
    match matchMarkerAt (c :: rest) with
    | some id => some id
    | none => searchAux rest

/-- `extract_video_id` from src/app.py: the capture group of the first
match of `(?:v=|/)([0-9A-Za-z_-]{11}).*`, or `none`. -/
def extract_video_id (url : String) : Option String :=
  (searchAux url.data).map fun cs => String.mk cs

/-- Specification-side: a valid 11-character identifier. -/
def validId (id : List Char) : Bool :=
  id.length == 11 && id.all isIdChar

/-- Specification-side: the marker preceding the identifier is `v=` or a
path separator `/`. -/
def isMarker (m : List Char) : Prop :=
  m = ['v', '='] ∨ m = ['/']

/-- Specification-side: the string contains `v=` or `/` followed by 11
identifier characters. -/
def hasPattern (s : List Char) : Prop :=
  ∃ p m id r, s = p ++ m ++ id ++ r ∧ isMarker m ∧ validId id = true

/-! ## Transcript Resolver (`get_transcript_text`, src/app.py lines 24-54)

The transcript backend (`youtube_transcript_api`) and the text formatter
are external collaborators; each of their operations may raise, which the
embedding models as `Except Unit`.  The source's bare `except:` handlers
and the enclosing `except Exception` handler both collapse any backend
error to the `none` outcome. -/

/-- The raw object returned by `transcript.fetch()`; its contents only
pass through to the formatter. -/
structure FetchedTranscript where
  payload : String

/-- A transcript object of the backend: `fetch()` may raise, and
`translate(lang)` returns another transcript object (or raises). -/
inductive TranscriptHandle where
  | mk (fetch : Except Unit FetchedTranscript)
       (translate : String → Except Unit TranscriptHandle)

/-- `transcript.fetch()`. -/
def TranscriptHandle.fetch : TranscriptHandle → Except Unit FetchedTranscript
  | .mk f _ => f

/-- `transcript.translate(lang)`. -/
def TranscriptHandle.translate : TranscriptHandle → String → Except Unit TranscriptHandle
  | .mk _ tr => tr

/-- The object returned by `api.list_transcripts(video_id)`:
`find_manually_created_transcript`, `find_generated_transcript`, and
`next(iter(transcript_list))` (here `first`), each fallible. -/
structure TranscriptList where
  find_manually_created_transcript : List String → Except Unit TranscriptHandle
  find_generated_transcript : List String → Except Unit TranscriptHandle
  first : Except Unit TranscriptHandle

/-- The transcript-fetching collaborators used by `get_transcript_text`:
`YouTubeTranscriptApi().list_transcripts` and
`TextFormatter().format_transcript`. -/
structure TranscriptAPI where
  list_transcripts : String → Except Unit TranscriptList
  format_transcript : FetchedTranscript → Except Unit String

/-- The nested try/except tier selection of `get_transcript_text`:
priority 1 manual ko/en, priority 2 auto-generated ko/en, priority 3 any
transcript translated to Korean. -/
def selectTranscript (transcript_list : TranscriptList) : Except Unit TranscriptHandle :=
  match transcript_list.find_manually_created_transcript ["ko", "en"] with
  | .ok t => .ok t
  | .error _ =>
    match transcript_list.find_generated_transcript ["ko", "en"] with
    | .ok t => .ok t
    | .error _ =>
      match transcript_list.first with
      | .ok t => t.translate "ko"
      | .error _ => .error ()

/-- The tail of `get_transcript_text`: `transcript.fetch()` followed by
`formatter.format_transcript(...)`; a raise in either is caught by the
enclosing `except Exception` and yields `None`. -/
def fetchAndFormat (api : TranscriptAPI) (t : TranscriptHandle) : Option String :=
  match t.fetch with
  | .error _ => none
  | .ok fetched =>
    match api.format_transcript fetched with
    | .error _ => none
    | .ok s => some s

/-- `get_transcript_text` from src/app.py: list the transcripts, select
one by the three-tier policy, fetch and format it; every failure path
returns `None`. -/
def get_transcript_text (api : TranscriptAPI) (video_id : String) : Option String :=
  match api.list_transcripts video_id with
  | .error _ => none
  | .ok transcript_list =>
    match selectTranscript transcript_list with
    | .error _ => none
    | .ok transcript => fetchAndFormat api transcript

/-- A transcript handle whose `fetch` succeeds and whose `translate`
always raises; used as the auto-generated English transcript of the
mock backend. -/
def enAutoHandle : TranscriptHandle :=
  .mk (.ok ⟨"auto generated english text"⟩) (fun _ => .error ())

/-- A mock transcript listing offering only an auto-generated transcript:
the manual lookup raises, iteration raises. -/
def tlGenOnly : TranscriptList :=
  { find_manually_created_transcript := fun _ => .error ()
    find_generated_transcript := fun _ => .ok enAutoHandle
    first := .error () }

/-- A mock backend whose listing returns `tlGenOnly` and whose formatter
returns the fetched payload unchanged. -/
def apiGenOnly : TranscriptAPI :=
  { list_transcripts := fun _ => .ok tlGenOnly
    format_transcript := fun fetched => .ok fetched.payload }

/-- A mock backend whose transcript listing itself raises (captions
disabled, private or missing video). -/
def apiListingFails : TranscriptAPI :=
  { list_transcripts := fun _ => .error ()
    format_transcript := fun fetched => .ok fetched.payload }

/-! ## Report Generator (`generate_coaching_data`, src/app.py lines 69-135)

The Gemini client is an external collaborator; the embedding models
`client.models.generate_content(...)` as a function from the corpus text
and the attempt index to either a response text or the `str(e)` of the
raised exception.  Sleep durations are tracked as rationals in a trace,
and every backend invocation is counted. -/

/-- Substring test: does `pat` occur inside `hay` (Python `in`)? -/
def hasSubstr (hay pat : List Char) : Bool :=
  match hay with
  | [] => pat.isEmpty
  | c :: t => pat.isPrefixOf (c :: t) || hasSubstr t pat

/-- The rate-limit test of the except-handler:
`"429" in error_str or "RESOURCE_EXHAUSTED" in error_str`. -/
def isRateLimit (error_str : String) : Bool :=
  hasSubstr error_str.data "429".data || hasSubstr error_str.data "RESOURCE_EXHAUSTED".data

/-- Numeric value of a run of decimal digits. -/
def digitsVal (ds : List Char) : ℚ :=
  ds.foldl (fun a c => a * 10 + ((c.toNat - 48 : Nat) : ℚ)) 0

/-- Match the regex `retry in (\d+(?:\.\d+)?)s` at the head of the list
and return the captured number.  The integer digit run is maximal; a
fractional part is taken greedily when a dot followed by a digit is
present, and shrinking either run can never expose the required `s`, so
the match is deterministic. -/
def matchHintAt : List Char → Option ℚ
  | 'r' :: 'e' :: 't' :: 'r' :: 'y' :: ' ' :: 'i' :: 'n' :: ' ' :: rest =>
    match rest.span Char.isDigit with
    | ([], _) => none
    | (d, '.' :: rest2) =>
      match rest2.span Char.isDigit with
      | ([], _) => none
      | (f, 's' :: _) => some (digitsVal d + digitsVal f / (10 : ℚ) ^ f.length)
      | (_, _) => none
    | (d, 's' :: _) => some (digitsVal d)
    | (_, _) => none
  | _ => none

/-- `re.search` scan for the retry hint: leftmost match wins. -/
def searchHint : List Char → Option ℚ
  | [] => none
  | c :: rest =>
    match matchHintAt (c :: rest) with
    | some q => some q
    | none => searchHint rest

/-- `re.search(r"retry in (\d+(?:\.\d+)?)s", error_str)` with the capture
converted by `float(...)`. -/
def parse_retry_hint (error_str : String) : Option ℚ :=
  searchHint error_str.data

/-- `max_retries = 3` in the source. -/
def max_retries : Nat := 3

/-- `base_delay = 5` in the source. -/
def base_delay : ℚ := 5

/-- The sleep duration for a rate-limited attempt:
`base_delay * (2 ** attempt)`, overridden by hint `+ 1.0` when the error
message carries `retry in <n>s`. -/
def waitTime (attempt : Nat) (error_str : String) : ℚ :=
  match parse_retry_hint error_str with
  | some n => n + 1
  | none => base_delay * 2 ^ attempt

/-- Observable trace of one `generate_coaching_data` run: the returned
value (`None` on failure), the `time.sleep` durations in order, and the
number of backend invocations made. -/
structure GenTrace where
  result : Option String
  sleeps : List ℚ
  attempts : Nat
deriving DecidableEq

/-- `client.models.generate_content(...)` abstracted: the corpus text and
the 0-based attempt index map to the response text or to `str(e)` of the
raised exception. -/
def GenBackend : Type := String → Nat → Except String String

/-- The `for attempt in range(max_retries)` loop: on success return the
text; on a rate-limited error sleep and continue (also after the final
attempt); on any other error return `None` immediately; when the
attempts are exhausted return `None`. -/
def retryLoop (call : Nat → Except String String) : Nat → Nat → GenTrace
  | _, 0 => ⟨none, [], 0⟩
  | attempt, remaining + 1 =>
    match call attempt with
    | .ok text => ⟨some text, [], 1⟩
    | .error e =>
      if isRateLimit e then
        let rest := retryLoop call (attempt + 1) remaining
        ⟨rest.result, waitTime attempt e :: rest.sleeps, rest.attempts + 1⟩
      else
        ⟨none, [], 1⟩

/-- `generate_coaching_data` from src/app.py: run the retry loop for
`max_retries` attempts against the backend, which receives the corpus
text (embedded in the prompt by the source). -/
def generate_coaching_data (backend : GenBackend) (full_transcript : String) : GenTrace :=
  retryLoop (backend full_transcript) 0 max_retries

/-- Mock backend: rate-limited twice (the second error carrying a retry
hint), then successful. -/
def backendTwoFails : GenBackend := fun _ n =>
  if n = 0 then .error "429 too many requests"
  else if n = 1 then .error "RESOURCE_EXHAUSTED please retry in 7s."
  else .ok "GENERATED"

/-- Mock backend: rate-limited on every attempt, no retry hint. -/
def backendAlways429 : GenBackend := fun _ _ => .error "Error 429"

/-- Mock backend: a non-rate-limit failure on every attempt. -/
def backendFatal : GenBackend := fun _ _ => .error "invalid api key"

/-! ## JSON values, fence cleaning and response handling
(`clean_json_string`, src/app.py lines 56-67, and the response block,
lines 222-284) -/

/-- JSON values as produced by `json.loads` (numbers restricted to the
integers, which covers every value this pipeline manipulates). -/
inductive Json where
  | null
  | bool (b : Bool)
  | num (n : Int)
  | str (s : String)
  | arr (items : List Json)
  | obj (fields : List (String × Json))

/-- Python `d[key]` on a parsed JSON value: a value for `key` when `d` is
an object containing it, otherwise a raise (modelled as `none`). -/
def jlookup (j : Json) (key : String) : Option Json :=
  match j with
  | .obj fields => fields.lookup key
  | _ => none

/-- Python `d.get(key, default)` on a parsed JSON object. -/
def jget (j : Json) (key : String) (default : Json) : Json :=
  (jlookup j key).getD default

/-- The whitespace stripped by Python `str.strip()` (ASCII portion). -/
def pyWs (c : Char) : Bool :=
  c == ' ' || c == '\t' || c == '\n' || c == '\r' || c == '\x0B' || c == '\x0C'

/-- Python `str.strip()`: remove leading and trailing whitespace. -/
def stripChars (cs : List Char) : List Char :=
  (cs.dropWhile pyWs).rdropWhile pyWs

/-- The backtick character. -/
def bq : Char := Char.ofNat 96

/-- The 7-character opening marker matched by
`cleaned.startswith("```json")`. -/
def fenceJson : List Char := [bq, bq, bq, 'j', 's', 'o', 'n']

/-- The 3-character fence marker. -/
def fence3 : List Char := [bq, bq, bq]

/-- `clean_json_string` from src/app.py over character lists: strip,
drop a leading 7-character json fence, drop a leading 3-character fence,
drop a trailing 3-character fence, strip again. -/
def cleanList (cs : List Char) : List Char :=
  let c1 := stripChars cs
  let c2 := if fenceJson.isPrefixOf c1 then c1.drop 7 else c1
  let c3 := if fence3.isPrefixOf c2 then c2.drop 3 else c2
  let c4 := if fence3.isSuffixOf c3 then c3.take (c3.length - 3) else c3
  stripChars c4

/-- `clean_json_string` from src/app.py. -/
def clean_json_string (json_str : String) : String :=
  String.mk (cleanList json_str.data)

/-- Wrap a response body in markdown code fences the way a backend might:
the text between "```json" plus a newline and a newline plus "```". -/
def wrapFence (body : List Char) : List Char :=
  fenceJson ++ ('\n' :: body) ++ ('\n' :: fence3)

/-- The observable outcome of the response-handling block
(src/app.py lines 222-284): no/empty response, a `json.JSONDecodeError`
(reported with the raw response), an uncaught exception (`data` is not
an object so `.get` raises `AttributeError`, which the
`except json.JSONDecodeError` clause does not catch), or the values
handed to the three display tabs. -/
inductive RunOutcome where
  | noResponse
  | parseError (raw : String)
  | uncaught
  | display (analysis routines resources : Json)

/-- The post-parse path: the three `data.get(...)` reads feeding the
tabs, with their source defaults; a non-object `data` raises. -/
def parsedOutcome (data : Json) : RunOutcome :=
  match data with
  | .obj _ =>
    .display (jget data "analysis" (.str "분석 내용이 없습니다."))
      (jget data "routine_items" (.arr []))
      (jget data "recommended_resources" (.arr []))
  | _ => .uncaught

/-- The response-handling block: a falsy `raw_response` reports no
response; otherwise the cleaned text is passed to `json.loads`
(abstracted as the `loads` collaborator), a decode failure is reported
with the raw text, and a parsed value flows to the display path. -/
def handleResponse (loads : String → Option Json) (raw_response : Option String) :
    RunOutcome :=
  match raw_response with
  | none => .noResponse
  | some raw =>
    if raw = "" then .noResponse
    else
      match loads (clean_json_string raw) with
      | none => .parseError raw
      | some data => parsedOutcome data

/-! ## Schedule Exporter (`create_ics_file`, src/app.py lines 137-162)

Calendar days are modelled as day numbers (`today : Nat`); `tomorrow` is
`today + 1`.  Each loop iteration's try-block either produces an event or
raises, in which case only that item is skipped. -/

/-- Python `str.split(sep)` for a single-character separator: splits at
every occurrence, keeping empty pieces. -/
def splitChar (sep : Char) : List Char → List (List Char)
  | [] => [[]]
  | c :: rest =>
    let r := splitChar sep rest
    if c == sep then [] :: r
    else
      match r with
      | h :: t => (c :: h) :: t
      | [] => [[c]]

/-- Python `int(...)` applied to a string: strip whitespace, then an
optional sign followed by a nonempty run of decimal digits; anything
else raises. -/
def pyIntOfChars (cs : List Char) : Except Unit Int :=
  match stripChars cs with
  | '+' :: ds =>
    if !ds.isEmpty && ds.all Char.isDigit then
      .ok (Int.ofNat (ds.foldl (fun a c => a * 10 + (c.toNat - 48)) 0))
    else .error ()
  | '-' :: ds =>
    if !ds.isEmpty && ds.all Char.isDigit then
      .ok (-Int.ofNat (ds.foldl (fun a c => a * 10 + (c.toNat - 48)) 0))
    else .error ()
  | ds =>
    if !ds.isEmpty && ds.all Char.isDigit then
      .ok (Int.ofNat (ds.foldl (fun a c => a * 10 + (c.toNat - 48)) 0))
    else .error ()

/-- Python `int(...)` applied to a parsed JSON value: integers pass
through, booleans coerce to 0/1, integer-looking strings parse, anything
else raises. -/
def pyInt : Json → Except Unit Int
  | .num n => .ok n
  | .bool b => .ok (if b then 1 else 0)
  | .str s => pyIntOfChars s.data
  | _ => .error ()

/-- One emitted calendar event: title from `activity`, start day and
HH:MM, the duration in minutes, description from `notes`. -/
structure IcsEvent where
  name : Json
  day : Nat
  hour : Int
  minute : Int
  durationMinutes : Int
  description : Json

/-- The try-block of one loop iteration of `create_ics_file`: parse
`item['time']` as `HH:MM` via `split(':')` and `int`, build the start
time (which validates the ranges), convert
`item.get('duration_minutes', 30)` with `int`, read `item['activity']`
and `item.get('notes', '')`; any raise skips the item. -/
def convertItem (tomorrow : Nat) (item : Json) : Option IcsEvent :=
  match jlookup item "time" with
  | some (Json.str ts) =>
    match splitChar ':' ts.data with
    | [hs, ms] =>
      match pyIntOfChars hs, pyIntOfChars ms with
      | .ok h, .ok m =>
        if 0 ≤ h ∧ h ≤ 23 ∧ 0 ≤ m ∧ m ≤ 59 then
          match pyInt (jget item "duration_minutes" (Json.num 30)) with
          | .ok dur =>
            match jlookup item "activity" with
            | some activity =>
              some { name := activity, day := tomorrow, hour := h, minute := m,
                     durationMinutes := dur,
                     description := jget item "notes" (Json.str "") }
            | none => none
          | .error _ => none
        else none
      | _, _ => none
    | _ => none
  | _ => none

/-- `create_ics_file` from src/app.py: one event per item that converts,
anchored to the day after `today`; items whose try-block raises are
skipped individually. -/
def create_ics_file (today : Nat) (routine_items : List Json) : List IcsEvent :=
  routine_items.filterMap (convertItem (today + 1))

/-- The spec's example routine item. -/
def meditateItem : Json :=
  .obj [("activity", .str "Meditate"), ("time", .str "07:00"),
        ("duration_minutes", .num 10)]

/-- A routine item whose `duration_minutes` is present but cannot be
converted by `int(...)`. -/
def badDurationItem : Json :=
  .obj [("activity", .str "Meditate"), ("time", .str "07:00"),
        ("duration_minutes", .str "soon")]

/-- A routine item with an unparseable time field. -/
def badTimeItem : Json :=
  .obj [("activity", .str "Stretch"), ("time", .str "early morning")]

/-! ## Batch Aggregator and pipeline driver (src/app.py lines 192-288) -/

/-- The loop state of the batch over URLs: the aggregated corpus
(`all_transcripts`), the success count (`valid_video_count`), and the
`st.warning` skip messages in emission order. -/
structure BatchResult where
  all_transcripts : String
  valid_video_count : Nat
  skips : List String

/-- One iteration of the URL loop (src/app.py lines 201-213): extract
the id; on success resolve the transcript; on transcript success append
the labeled block and bump the count, on transcript failure record the
`자막 실패` warning; an unparseable URL falls through silently. -/
def batchStep (fetch : String → Option String) (acc : BatchResult) (url : String) :
    BatchResult :=
  match extract_video_id url with
  | some video_id =>
    match fetch video_id with
    | some transcript =>
      { acc with
        all_transcripts :=
          acc.all_transcripts ++ "\n\n--- Video ID: " ++ video_id ++ " ---\n" ++ transcript
        valid_video_count := acc.valid_video_count + 1 }
    | none => { acc with skips := acc.skips ++ ["⚠️ 자막 실패: " ++ url] }
  | none => acc

/-- The batch over the URL list, with `fetch` abstracting
`get_transcript_text` against the live backend. -/
def runBatch (fetch : String → Option String) (urls : List String) : BatchResult :=
  urls.foldl (batchStep fetch) ⟨"", 0, []⟩

/-- The outcome of one driver run, after the batch: either the
empty-corpus error (`분석할 수 있는 자막이 없습니다`) short-circuits, or
the generator output flows into the response-handling block. -/
inductive PipelineOutcome where
  | emptyCorpus
  | generated (o : RunOutcome)

/-- The driver (src/app.py lines 218-288): invoke the Report Generator
only when `valid_video_count > 0`; the boolean records whether the
generation backend was invoked. -/
def runPipeline (fetch : String → Option String) (backend : GenBackend)
    (loads : String → Option Json) (urls : List String) :
    PipelineOutcome × Bool :=
  let res := runBatch fetch urls
  if res.valid_video_count > 0 then
    let trace := generate_coaching_data backend res.all_transcripts
    (.generated (handleResponse loads trace.result), true)
  else
    (.emptyCorpus, false)

/-- A mock resolver with exactly one known video id. -/
def fetchOnlyAAA : String → Option String :=
  fun video_id => if video_id = "aaaaaaaaaaa" then some "TRANSCRIPT" else none

/-- A mock resolver for which every video fails. -/
def fetchNothing : String → Option String := fun _ => none

/-- A `json.loads` stand-in that always fails. -/
def loadsNothing : String → Option Json := fun _ => none

/-- The three-URL batch of the spec's partial-failure scenario: one
malformed URL, one parseable URL without captions, one good URL. -/
def urlsC7 : List String :=
  ["not a url", "https://youtu.be/dQw4w9WgXcQ", "https://youtu.be/aaaaaaaaaaa"]

theorem matchIdAt_eq_some {cs id : List Char} :
    matchIdAt cs = some id ↔ ∃ r, cs = id ++ r ∧ validId id = true := by
  unfold matchIdAt
  constructor
  · intro h
    split at h
    · rename_i hc
      cases h
      refine ⟨cs.drop 11, (cs.take_append_drop 11).symm, ?_⟩
      simpa [validId] using hc
    · exact absurd h (by simp)
  · rintro ⟨r, rfl, hv⟩
    have hlen : id.length = 11 := by
      have h1 : validId id = true := hv
      simp only [validId, Bool.and_eq_true, beq_iff_eq] at h1
      exact h1.1
    have htake : (id ++ r).take 11 = id := by
      rw [← hlen]
      exact List.take_left id r
    rw [htake]
    have : validId id = true := hv
    simp only [validId, Bool.and_eq_true] at this
    simp [this.1, this.2]

theorem matchMarkerAt_eq_some {cs id : List Char} :
    matchMarkerAt cs = some id ↔
      ∃ m r, cs = m ++ id ++ r ∧ isMarker m ∧ validId id = true := by
  constructor
  · intro h
    unfold matchMarkerAt at h
    split at h
    · obtain ⟨r, hr, hv⟩ := matchIdAt_eq_some.mp h
      exact ⟨['v', '='], r, by simp [hr], Or.inl rfl, hv⟩
    · obtain ⟨r, hr, hv⟩ := matchIdAt_eq_some.mp h
      exact ⟨['/'], r, by simp [hr], Or.inr rfl, hv⟩
    · exact absurd h (by simp)
  · rintro ⟨m, r, rfl, hm, hv⟩
    rcases hm with rfl | rfl
    · show matchMarkerAt ('v' :: '=' :: (id ++ r)) = some id
      unfold matchMarkerAt
      exact matchIdAt_eq_some.mpr ⟨r, rfl, hv⟩
    · show matchMarkerAt ('/' :: (id ++ r)) = some id
      unfold matchMarkerAt
      exact matchIdAt_eq_some.mpr ⟨r, rfl, hv⟩

theorem searchAux_eq_none {s : List Char} (h : searchAux s = none) :
    ¬ hasPattern s := by
  induction s with
  | nil =>
    rintro ⟨p, m, id, r, hs, hm, hv⟩
    rcases hm with rfl | rfl <;> simp at hs
  | cons c rest ih =>
    unfold searchAux at h
    rcases hmm : matchMarkerAt (c :: rest) with _ | id
    · rw [hmm] at h
      rintro ⟨p, m, id, r, hs, hm, hv⟩
      cases p with
      | nil =>
        have : matchMarkerAt (c :: rest) = some id :=
          matchMarkerAt_eq_some.mpr ⟨m, r, by simpa using hs, hm, hv⟩
        rw [hmm] at this
        exact absurd this (by simp)
      | cons p0 ptl =>
        have hrest : rest = ptl ++ m ++ id ++ r := by
          simpa using congrArg List.tail hs
        exact ih h ⟨ptl, m, id, r, hrest, hm, hv⟩
    · rw [hmm] at h
      exact absurd h (by simp)

theorem searchAux_eq_some {s id : List Char} (h : searchAux s = some id) :
    ∃ p m r, s = p ++ m ++ id ++ r ∧ isMarker m ∧ validId id = true ∧
      ∀ p' m' id' r', s = p' ++ m' ++ id' ++ r' → isMarker m' →
        validId id' = true → p.length ≤ p'.length := by
  induction s with
  | nil => exact absurd h (by simp [searchAux])
  | cons c rest ih =>
    unfold searchAux at h
    rcases hmm : matchMarkerAt (c :: rest) with _ | id0
    · rw [hmm] at h
      obtain ⟨p, m, r, hs, hm, hv, hmin⟩ := ih h
      refine ⟨c :: p, m, r, by simp [hs], hm, hv, ?_⟩
      rintro p' m' id' r' hs' hm' hv'
      cases p' with
      | nil =>
        have : matchMarkerAt (c :: rest) = some id' :=
          matchMarkerAt_eq_some.mpr ⟨m', r', by simpa using hs', hm', hv'⟩
        rw [hmm] at this
        exact absurd this (by simp)
      | cons p0 ptl =>
        have hrest : rest = ptl ++ m' ++ id' ++ r' := by
          simpa using congrArg List.tail hs'
        have := hmin ptl m' id' r' hrest hm' hv'
        simpa using Nat.succ_le_succ this
    · rw [hmm] at h
      cases h
      obtain ⟨m, r, hs, hm, hv⟩ := matchMarkerAt_eq_some.mp hmm
      exact ⟨[], m, r, by simpa using hs, hm, hv, fun _ _ _ _ _ _ _ => Nat.zero_le _⟩

theorem waitTime_zero (e : String) :
    waitTime 0 e = match parse_retry_hint e with | some n => n + 1 | none => 5 := by
  unfold waitTime base_delay
  rcases parse_retry_hint e with _ | n <;> norm_num

theorem waitTime_one (e : String) :
    waitTime 1 e = match parse_retry_hint e with | some n => n + 1 | none => 10 := by
  unfold waitTime base_delay
  rcases parse_retry_hint e with _ | n <;> norm_num

theorem waitTime_two (e : String) :
    waitTime 2 e = match parse_retry_hint e with | some n => n + 1 | none => 20 := by
  unfold waitTime base_delay
  rcases parse_retry_hint e with _ | n <;> norm_num

/-- C1: for every corpus text, when the backend fails with a rate-limit
signal (error text carrying '429' or 'RESOURCE_EXHAUSTED') on the first
two attempts and succeeds on the third, `generate_coaching_data` returns
the successful result having slept 5 seconds before the second attempt
and 10 seconds before the third; and when an error message embeds an
explicit `retry in N s` hint, the sleep before the next attempt is N+1
seconds instead of the computed backoff. -/
theorem generate_retry_backoff_success (backend : GenBackend)
    (full_transcript e0 e1 r : String)
    (h0 : backend full_transcript 0 = .error e0)
    (h1 : backend full_transcript 1 = .error e1)
    (h2 : backend full_transcript 2 = .ok r)
    (hr0 : isRateLimit e0 = true) (hr1 : isRateLimit e1 = true) :
    generate_coaching_data backend full_transcript =
      ⟨some r,
       [(match parse_retry_hint e0 with | some n => n + 1 | none => 5),
        (match parse_retry_hint e1 with | some n => n + 1 | none => 10)],
       3⟩ := by
  rw [← waitTime_zero e0, ← waitTime_one e1]
  simp [generate_coaching_data, max_retries, retryLoop, h0, h1, h2, hr0, hr1]

/-- Witness for C1: a backend rate-limited twice (the second error
carrying the hint `retry in 7s`), then succeeding; the run returns the
success and slept 5 then 7+1 seconds. -/
theorem generate_retry_backoff_success_witness :
    generate_coaching_data backendTwoFails "corpus" = ⟨some "GENERATED", [5, 8], 3⟩ := by
  have h := generate_retry_backoff_success backendTwoFails "corpus"
    "429 too many requests" "RESOURCE_EXHAUSTED please retry in 7s." "GENERATED"
    rfl rfl rfl (by decide) (by decide)
  rw [h]
  have hn : parse_retry_hint "429 too many requests" = none := by decide
  have hv : parse_retry_hint "RESOURCE_EXHAUSTED please retry in 7s." =
      some (digitsVal ['7']) := rfl
  have h7 : digitsVal ['7'] = 7 := by
    show (0 : ℚ) * 10 + ((7 : Nat) : ℚ) = 7
    norm_num
  rw [hn, hv, h7]
  norm_num

/-- C2: when the backend fails with a rate-limit signal on all 3
attempts, `generate_coaching_data` yields the failure outcome (the
source's `None`, which the caller reports as the generation error)
without a 4th backend invocation; and when the backend fails with a
non-rate-limit error at any attempt, the loop fails immediately with no
retry and no sleep.  Exhausting retries never yields a partial result. -/
theorem generate_exhaust_and_nonretryable (backend : GenBackend)
    (full_transcript e0 e1 e2 : String)
    (h0 : backend full_transcript 0 = .error e0)
    (h1 : backend full_transcript 1 = .error e1)
    (h2 : backend full_transcript 2 = .error e2)
    (hr0 : isRateLimit e0 = true) (hr1 : isRateLimit e1 = true)
    (hr2 : isRateLimit e2 = true) :
    (generate_coaching_data backend full_transcript).result = none ∧
    (generate_coaching_data backend full_transcript).attempts = 3 ∧
    (∀ (call : Nat → Except String String) (a rem : Nat) (e : String),
      call a = .error e → isRateLimit e = false →
      retryLoop call a (rem + 1) = ⟨none, [], 1⟩) := by
  refine ⟨?_, ?_, ?_⟩
  · simp [generate_coaching_data, max_retries, retryLoop, h0, h1, h2, hr0, hr1, hr2]
  · simp [generate_coaching_data, max_retries, retryLoop, h0, h1, h2, hr0, hr1, hr2]
  · intro call a rem e hc hnr
    simp [retryLoop, hc, hnr]

/-- Witness for C2: a backend rate-limited on every attempt fails with
no result after exactly 3 invocations, and a backend with a
non-rate-limit error fails on the first invocation with no sleep. -/
theorem generate_exhaust_and_nonretryable_witness :
    (generate_coaching_data backendAlways429 "corpus").result = none ∧
    (generate_coaching_data backendAlways429 "corpus").attempts = 3 ∧
    retryLoop (backendFatal "corpus") 0 3 = ⟨none, [], 1⟩ := by
  have h := generate_exhaust_and_nonretryable backendAlways429 "corpus"
    "Error 429" "Error 429" "Error 429" rfl rfl rfl
    (by decide) (by decide) (by decide)
  exact ⟨h.1, h.2.1, h.2.2 (backendFatal "corpus") 0 2 "invalid api key" rfl (by decide)⟩

/-- C10: a backoff sleep is performed after every rate-limited attempt,
including the third and final one: when all 3 attempts fail with a
rate-limit signal (and no error message carries a retry hint),
`generate_coaching_data` sleeps 5, 10 and then 20 seconds — 35 seconds
in total — before returning the failure outcome, even though the final
20-second sleep precedes no further attempt. -/
theorem generate_sleeps_after_final_attempt (backend : GenBackend)
    (full_transcript e0 e1 e2 : String)
    (h0 : backend full_transcript 0 = .error e0)
    (h1 : backend full_transcript 1 = .error e1)
    (h2 : backend full_transcript 2 = .error e2)
    (hr0 : isRateLimit e0 = true) (hr1 : isRateLimit e1 = true)
    (hr2 : isRateLimit e2 = true)
    (hn0 : parse_retry_hint e0 = none) (hn1 : parse_retry_hint e1 = none)
    (hn2 : parse_retry_hint e2 = none) :
    generate_coaching_data backend full_transcript = ⟨none, [5, 10, 20], 3⟩ ∧
    (generate_coaching_data backend full_transcript).sleeps.sum = 35 := by
  have w0 : waitTime 0 e0 = 5 := by rw [waitTime_zero, hn0]
  have w1 : waitTime 1 e1 = 10 := by rw [waitTime_one, hn1]
  have w2 : waitTime 2 e2 = 20 := by rw [waitTime_two, hn2]
  have heq : generate_coaching_data backend full_transcript = ⟨none, [5, 10, 20], 3⟩ := by
    simp [generate_coaching_data, max_retries, retryLoop, h0, h1, h2, hr0, hr1, hr2,
      w0, w1, w2]
  refine ⟨heq, ?_⟩
  rw [heq]
  norm_num

/-- Witness for C10: the always-rate-limited backend with no hint in its
error text sleeps 5, 10 and 20 seconds and returns no result. -/
theorem generate_sleeps_after_final_attempt_witness :
    generate_coaching_data backendAlways429 "corpus" = ⟨none, [5, 10, 20], 3⟩ := by
  have h := generate_sleeps_after_final_attempt backendAlways429 "corpus"
    "Error 429" "Error 429" "Error 429" rfl rfl rfl
    (by decide) (by decide) (by decide) (by decide) (by decide) (by decide)
  exact h.1

/-- C5: transcript tier selection is deterministic and evaluated in
strict order with first success winning: tier 1 a manual ko/en
transcript, tier 2 an auto-generated ko/en transcript, tier 3 any
transcript translated to Korean.  The tier-2 conclusion is fully
determined without any constraint on `transcript_list.first` or on the
`translate` component, so a backend offering only an auto-generated
English transcript is resolved via tier 2 and translation is never
attempted. -/
theorem resolver_tier_order (api : TranscriptAPI) (video_id : String)
    (tl : TranscriptList) (hl : api.list_transcripts video_id = .ok tl) :
    (∀ t, tl.find_manually_created_transcript ["ko", "en"] = .ok t →
      get_transcript_text api video_id = fetchAndFormat api t) ∧
    (∀ t, tl.find_manually_created_transcript ["ko", "en"] = .error () →
      tl.find_generated_transcript ["ko", "en"] = .ok t →
      get_transcript_text api video_id = fetchAndFormat api t) ∧
    (∀ t, tl.find_manually_created_transcript ["ko", "en"] = .error () →
      tl.find_generated_transcript ["ko", "en"] = .error () →
      tl.first = .ok t →
      get_transcript_text api video_id =
        match t.translate "ko" with
        | .ok t2 => fetchAndFormat api t2
        | .error _ => none) := by
  refine ⟨?_, ?_, ?_⟩
  · intro t hm
    simp [get_transcript_text, selectTranscript, hl, hm]
  · intro t hm hg
    simp [get_transcript_text, selectTranscript, hl, hm, hg]
  · intro t hm hg hf
    rcases htr : t.translate "ko" with e | t2 <;>
      simp [get_transcript_text, selectTranscript, hl, hm, hg, hf, htr]

/-- Witness for C5: against the mock backend offering only an
auto-generated English transcript (manual lookup and iteration raise),
the resolver returns that transcript's formatted text via tier 2. -/
theorem resolver_tier_order_witness :
    get_transcript_text apiGenOnly "dQw4w9WgXcQ" = some "auto generated english text" := by
  have h := (resolver_tier_order apiGenOnly "dQw4w9WgXcQ" tlGenOnly rfl).2.1
    enAutoHandle rfl rfl
  exact h.trans rfl

/-- C6: for every identifier and every backend behavior, the resolver
never raises: a failing transcript listing, a tier selection where every
tier fails, a raising `fetch`, and a raising formatter each collapse to
the `none` outcome. -/
theorem resolver_never_raises (api : TranscriptAPI) (video_id : String) :
    (api.list_transcripts video_id = .error () →
      get_transcript_text api video_id = none) ∧
    (∀ tl, api.list_transcripts video_id = .ok tl →
      selectTranscript tl = .error () → get_transcript_text api video_id = none) ∧
    (∀ tl t, api.list_transcripts video_id = .ok tl →
      selectTranscript tl = .ok t → t.fetch = .error () →
      get_transcript_text api video_id = none) ∧
    (∀ tl t fetched, api.list_transcripts video_id = .ok tl →
      selectTranscript tl = .ok t → t.fetch = .ok fetched →
      api.format_transcript fetched = .error () →
      get_transcript_text api video_id = none) ∧
    (∀ tl, api.list_transcripts video_id = .ok tl →
      tl.find_manually_created_transcript ["ko", "en"] = .error () →
      tl.find_generated_transcript ["ko", "en"] = .error () →
      (tl.first = .error () ∨
        ∃ t, tl.first = .ok t ∧ t.translate "ko" = .error ()) →
      get_transcript_text api video_id = none) := by
  refine ⟨?_, ?_, ?_, ?_, ?_⟩
  · intro hl
    simp [get_transcript_text, hl]
  · intro tl hl hsel
    simp [get_transcript_text, hl, hsel]
  · intro tl t hl hsel hf
    simp [get_transcript_text, fetchAndFormat, hl, hsel, hf]
  · intro tl t fetched hl hsel hf hfmt
    simp [get_transcript_text, fetchAndFormat, hl, hsel, hf, hfmt]
  · intro tl hl hm hg hfirst
    have hsel : selectTranscript tl = .error () := by
      rcases hfirst with hfe | ⟨t, hfo, htr⟩
      · simp [selectTranscript, hm, hg, hfe]
      · simp [selectTranscript, hm, hg, hfo, htr]
    simp [get_transcript_text, hl, hsel]

/-- Witness for C6: a backend whose transcript listing raises resolves
to `none`, and the mock all-tiers-fail listing resolves to `none`. -/
theorem resolver_never_raises_witness :
    get_transcript_text apiListingFails "dQw4w9WgXcQ" = none := by
  exact (resolver_never_raises apiListingFails "dQw4w9WgXcQ").1 rfl

/-- C4: for every batch run in which zero items resolve to a transcript,
the generation backend is never invoked: the run short-circuits with the
empty-corpus error, the invocation flag stays false, and the outcome is
identical for every possible backend. -/
theorem empty_corpus_guard (fetch : String → Option String) (backend : GenBackend)
    (loads : String → Option Json) (urls : List String)
    (h : (runBatch fetch urls).valid_video_count = 0) :
    runPipeline fetch backend loads urls = (.emptyCorpus, false) ∧
    (∀ backend' : GenBackend,
      runPipeline fetch backend' loads urls = (.emptyCorpus, false)) := by
  constructor
  · simp [runPipeline, h]
  · intro backend'
    simp [runPipeline, h]

/-- Witness for C4: a batch where every item fails resolution (the
resolver knows no video) short-circuits with the empty-corpus error and
no backend invocation. -/
theorem empty_corpus_guard_witness :
    runPipeline fetchNothing backendAlways429 loadsNothing urlsC7 =
      (.emptyCorpus, false) := by
  exact (empty_corpus_guard fetchNothing backendAlways429 loadsNothing urlsC7
    (by decide)).1

/-- C8: for every URL string containing `v=` or `/` followed by 11
characters from `[0-9A-Za-z_-]`, `extract_video_id` returns exactly the
11-character substring of the first such match; for every other string
it returns `none` (the `isSome` direction of the equivalence), a normal
outcome rather than an error. -/
theorem extract_video_id_spec (url : String) :
    ((extract_video_id url).isSome ↔ hasPattern url.data) ∧
    (∀ id : String, extract_video_id url = some id →
      ∃ p m r, url.data = p ++ m ++ id.data ++ r ∧ isMarker m ∧
        validId id.data = true ∧
        ∀ p' m' id' r', url.data = p' ++ m' ++ id' ++ r' → isMarker m' →
          validId id' = true → p.length ≤ p'.length) := by
  constructor
  · constructor
    · intro h
      rcases hs : searchAux url.data with _ | cs
      · rw [extract_video_id, hs] at h
        exact absurd h (by simp)
      · obtain ⟨p, m, r, heq, hm, hv, _⟩ := searchAux_eq_some hs
        exact ⟨p, m, cs, r, heq, hm, hv⟩
    · intro h
      rcases hs : searchAux url.data with _ | cs
      · exact absurd h (searchAux_eq_none hs)
      · simp [extract_video_id, hs]
  · intro id h
    rcases hs : searchAux url.data with _ | cs
    · rw [extract_video_id, hs] at h
      exact absurd h (by simp)
    · rw [extract_video_id, hs] at h
      have hid : id.data = cs := by
        cases h
        rfl
      rw [hid]
      exact searchAux_eq_some hs

/-- Witness for C8: the spec's example URL decomposes around the
extracted identifier `dQw4w9WgXcQ`, whose match is leftmost. -/
theorem extract_video_id_spec_witness :
    ∃ p m r, "https://youtu.be/dQw4w9WgXcQ".data =
        p ++ m ++ "dQw4w9WgXcQ".data ++ r ∧ isMarker m ∧
        validId "dQw4w9WgXcQ".data = true ∧
        ∀ p' m' id' r', "https://youtu.be/dQw4w9WgXcQ".data = p' ++ m' ++ id' ++ r' →
          isMarker m' → validId id' = true → p.length ≤ p'.length := by
  exact (extract_video_id_spec "https://youtu.be/dQw4w9WgXcQ").2
    "dQw4w9WgXcQ" (by decide)

/-- C7 counterexample: in the spec's 3-URL scenario (one malformed URL,
one parseable URL without captions, one good URL) the batch loop records
exactly ONE skip — the `자막 실패` warning for the caption-less URL —
not two: the malformed URL produces no skip report because the
`if video_id:` branch has no else-arm (src/app.py lines 204-211). -/
theorem batch_two_skips_counterexample :
    (runBatch fetchOnlyAAA urlsC7).skips =
      ["⚠️ 자막 실패: https://youtu.be/dQw4w9WgXcQ"] ∧
    (runBatch fetchOnlyAAA urlsC7).skips.length = 1 ∧
    (runBatch fetchOnlyAAA urlsC7).valid_video_count = 1 := by
  refine ⟨by decide, by decide, by decide⟩

/-- C7 amended: batch processing is partial-failure tolerant — given 3
URLs processed in input order where the first is malformed, the second
resolves to no transcript and the third succeeds, the aggregator still
produces a non-empty corpus consisting of the valid item's labeled
block and reports exactly one skip (the transcript-unavailable warning
for the second URL); the malformed URL is skipped silently with no
recorded reason. -/
theorem batch_partial_failure_amended (fetch : String → Option String)
    (u1 u2 u3 v2 v3 t : String)
    (h1 : extract_video_id u1 = none)
    (h2 : extract_video_id u2 = some v2) (hf2 : fetch v2 = none)
    (h3 : extract_video_id u3 = some v3) (hf3 : fetch v3 = some t) :
    runBatch fetch [u1, u2, u3] =
      ⟨"\n\n--- Video ID: " ++ v3 ++ " ---\n" ++ t, 1, ["⚠️ 자막 실패: " ++ u2]⟩ ∧
    0 < (runBatch fetch [u1, u2, u3]).all_transcripts.length := by
  have heq : runBatch fetch [u1, u2, u3] =
      ⟨"\n\n--- Video ID: " ++ v3 ++ " ---\n" ++ t, 1, ["⚠️ 자막 실패: " ++ u2]⟩ := by
    show batchStep fetch (batchStep fetch (batchStep fetch ⟨"", 0, []⟩ u1) u2) u3 = _
    simp only [batchStep, h1, h2, h3, hf2, hf3]
    rfl
  refine ⟨heq, ?_⟩
  rw [heq]
  show 0 < ("\n\n--- Video ID: " ++ v3 ++ " ---\n" ++ t).length
  rw [String.length_append, String.length_append, String.length_append]
  have h16 : ("\n\n--- Video ID: " : String).length = 16 := rfl
  omega

/-- Witness for the amended C7 theorem at the concrete 3-URL scenario. -/
theorem batch_partial_failure_amended_witness :
    runBatch fetchOnlyAAA urlsC7 =
      ⟨"\n\n--- Video ID: " ++ "aaaaaaaaaaa" ++ " ---\n" ++ "TRANSCRIPT", 1,
       ["⚠️ 자막 실패: " ++ "https://youtu.be/dQw4w9WgXcQ"]⟩ := by
  exact (batch_partial_failure_amended fetchOnlyAAA
    "not a url" "https://youtu.be/dQw4w9WgXcQ" "https://youtu.be/aaaaaaaaaaa"
    "dQw4w9WgXcQ" "aaaaaaaaaaa" "TRANSCRIPT"
    (by decide) (by decide) (by decide) (by decide) (by decide)).1

/-- C9 counterexample: a routine item whose `duration_minutes` field is
present but invalid (`"soon"`, unconvertible by `int(...)`) is NOT
exported with a 30-minute default — `int(item.get('duration_minutes', 30))`
raises and the whole item is skipped, so the export of this single-item
list is empty where the claim demands one event of duration 30. -/
theorem ics_invalid_duration_counterexample :
    create_ics_file 0 [badDurationItem] = [] := rfl

/-- C9 amended: export emits one event per valid item anchored to the
day after generation with title = activity, start = the parsed HH:MM
time, duration = `duration_minutes` (defaulting to 30 minutes when the
field is ABSENT; an item whose `duration_minutes` is present but not
convertible by `int(...)` is skipped like a bad-time item), and
description = notes; an item whose time fails to parse is skipped
individually while events are still emitted for all remaining items. -/
theorem ics_export_amended :
    (∀ today : Nat, create_ics_file today [meditateItem] =
      [⟨Json.str "Meditate", today + 1, 7, 0, 10, Json.str ""⟩]) ∧
    (∀ (today : Nat) (activity : Json),
      create_ics_file today
          [Json.obj [("activity", activity), ("time", Json.str "07:00")]] =
        [⟨activity, today + 1, 7, 0, 30, Json.str ""⟩]) ∧
    (∀ (today : Nat) (pre post : List Json) (bad : Json),
      convertItem (today + 1) bad = none →
      create_ics_file today (pre ++ bad :: post) =
        create_ics_file today (pre ++ post)) := by
  refine ⟨?_, ?_, ?_⟩
  · intro today
    rfl
  · intro today activity
    rfl
  · intro today pre post bad hbad
    simp [create_ics_file, List.filterMap_append, List.filterMap_cons, hbad]

/-- Witness for the amended C9 theorem: the spec's Meditate item exports
as a 10-minute 07:00 event on day `today + 1`, and an item with an
unparseable time is dropped without affecting the rest. -/
theorem ics_export_amended_witness :
    create_ics_file 5 [meditateItem] =
      [⟨Json.str "Meditate", 6, 7, 0, 10, Json.str ""⟩] ∧
    create_ics_file 5 ([meditateItem] ++ badTimeItem :: []) =
      create_ics_file 5 ([meditateItem] ++ []) := by
  refine ⟨ics_export_amended.1 5, ics_export_amended.2.2 5 [meditateItem] [] badTimeItem rfl⟩

theorem pyWs_head_false {c : Char} {tb : List Char}
    (hL : (c :: tb).dropWhile pyWs = c :: tb) : pyWs c = false := by
  cases hpc : pyWs c
  · rfl
  · exfalso
    rw [List.dropWhile_cons, if_pos hpc] at hL
    have hlen := congrArg List.length hL
    have hle := (List.dropWhile_suffix (l := tb) pyWs).sublist.length_le
    simp at hlen
    omega

theorem stripChars_self {body : List Char}
    (hL : body.dropWhile pyWs = body) (hR : body.rdropWhile pyWs = body) :
    stripChars body = body := by
  rw [stripChars, hL, hR]

theorem cleanList_wrapFence (body : List Char)
    (hL : body.dropWhile pyWs = body) (hR : body.rdropWhile pyWs = body) :
    cleanList (wrapFence body) = body := by
  have hbq : pyWs bq = false := by decide
  have hstrip1 : stripChars (wrapFence body) = wrapFence body := by
    have hshape1 : wrapFence body =
        bq :: ([bq, bq, 'j', 's', 'o', 'n'] ++ ('\n' :: body) ++ ('\n' :: fence3)) := by
      simp [wrapFence, fenceJson]
    have hdw : List.dropWhile pyWs (wrapFence body) = wrapFence body := by
      rw [hshape1]
      simp [List.dropWhile_cons, hbq]
    have hshape2 : wrapFence body =
        (fenceJson ++ ('\n' :: body) ++ ['\n', bq, bq]) ++ [bq] := by
      simp [wrapFence, fence3]
    have hrdw : List.rdropWhile pyWs (wrapFence body) = wrapFence body := by
      rw [hshape2]
      exact List.rdropWhile_concat_neg pyWs _ bq (by simp [hbq])
    rw [stripChars, hdw, hrdw]
  have hpre : fenceJson.isPrefixOf (wrapFence body) = true :=
    List.isPrefixOf_iff_prefix.mpr
      ⟨('\n' :: body) ++ ('\n' :: fence3), by simp [wrapFence]⟩
  have hdrop : (wrapFence body).drop 7 = '\n' :: (body ++ '\n' :: fence3) := by
    have hsh : wrapFence body = fenceJson ++ (('\n' :: body) ++ ('\n' :: fence3)) := by
      simp [wrapFence]
    rw [hsh, show (7 : Nat) = fenceJson.length from rfl, List.drop_left]
    simp
  have hpre2 : fence3.isPrefixOf ('\n' :: (body ++ '\n' :: fence3)) = false := by
    rw [← Bool.not_eq_true, List.isPrefixOf_iff_prefix]
    rintro ⟨tl, htl⟩
    rw [fence3] at htl
    simp at htl
    exact absurd htl.1 (by decide)
  have hsuf : fence3.isSuffixOf ('\n' :: (body ++ '\n' :: fence3)) = true :=
    List.isSuffixOf_iff_suffix.mpr ⟨'\n' :: (body ++ ['\n']), by simp [fence3]⟩
  have hlen2 : ('\n' :: (body ++ '\n' :: fence3)).length - 3 =
      ('\n' :: (body ++ ['\n'])).length := by
    simp [fence3]
  have htake : ('\n' :: (body ++ '\n' :: fence3)).take
      (('\n' :: (body ++ '\n' :: fence3)).length - 3) = '\n' :: (body ++ ['\n']) := by
    have hsplit : ('\n' :: (body ++ '\n' :: fence3)) =
        ('\n' :: (body ++ ['\n'])) ++ fence3 := by
      simp
    rw [hlen2, hsplit, List.take_left]
  have hfinal : stripChars ('\n' :: (body ++ ['\n'])) = body := by
    by_cases hb : body = []
    · subst hb
      decide
    · obtain ⟨c, tb, rfl⟩ := List.exists_cons_of_ne_nil hb
      have hc : pyWs c = false := pyWs_head_false hL
      have hd : List.dropWhile pyWs ('\n' :: ((c :: tb) ++ ['\n'])) =
          (c :: tb) ++ ['\n'] := by
        rw [List.dropWhile_cons, if_pos (by decide)]
        rw [List.cons_append, List.dropWhile_cons, if_neg (by simp [hc])]
      have hr2 : List.rdropWhile pyWs ((c :: tb) ++ ['\n']) = c :: tb := by
        rw [List.rdropWhile_concat_pos pyWs _ '\n' (by decide)]
        exact hR
      rw [stripChars, hd, hr2]
  simp only [cleanList]
  rw [hstrip1]
  rw [if_pos hpre, hdrop,
    if_neg (show ¬fence3.isPrefixOf ('\n' :: (body ++ '\n' :: fence3)) = true by
      simp only [hpre2]
      exact Bool.false_ne_true),
    if_pos hsuf, htake]
  exact hfinal

theorem cleanList_self (body : List Char)
    (hL : body.dropWhile pyWs = body) (hR : body.rdropWhile pyWs = body)
    (hp : fence3.isPrefixOf body = false) (hs : fence3.isSuffixOf body = false) :
    cleanList body = body := by
  have hpj : fenceJson.isPrefixOf body = false := by
    rw [← Bool.not_eq_true, List.isPrefixOf_iff_prefix]
    intro hj
    have h3 : fence3 <+: body :=
      List.IsPrefix.trans ⟨['j', 's', 'o', 'n'], rfl⟩ hj
    have := List.isPrefixOf_iff_prefix.mpr h3
    rw [hp] at this
    exact absurd this (by simp)
  simp only [cleanList]
  rw [stripChars_self hL hR]
  rw [if_neg (show ¬fenceJson.isPrefixOf body = true by
        simp only [hpj]
        exact Bool.false_ne_true),
    if_neg (show ¬fence3.isPrefixOf body = true by
        simp only [hp]
        exact Bool.false_ne_true),
    if_neg (show ¬fence3.isSuffixOf body = true by
        simp only [hs]
        exact Bool.false_ne_true)]
  exact stripChars_self hL hR

/-- C3 counterexample: the syntactically valid JSON object `{}` violates
the CoachingPlan schema (no analysis, no routine_items, no
recommended_resources), yet the run does not fail hard: the display path
accepts it, silently defaulting every field — in particular the routine
list is coerced to the empty plan. -/
theorem json_schema_counterexample :
    parsedOutcome (Json.obj []) =
      RunOutcome.display (Json.str "분석 내용이 없습니다.") (Json.arr [])
        (Json.arr []) := rfl

/-- C3 amended: in structured mode, enclosing code-fence markers are
stripped before parsing, so a response wrapped in code fences cleans to
the same text (hence parses to the same value) as the identical response
without fences, and a syntactic JSON parse failure is a hard error
surfaced with the raw response; but no schema validation is performed —
any syntactically valid JSON object is accepted with missing fields
silently defaulted, so a schema-violating response can be coerced to an
empty plan rather than rejected. -/
theorem json_contract_amended :
    (∀ body : List Char, body.dropWhile pyWs = body →
      body.rdropWhile pyWs = body → fence3.isPrefixOf body = false →
      fence3.isSuffixOf body = false →
      cleanList (wrapFence body) = body ∧ cleanList body = body) ∧
    (∀ (loads : String → Option Json) (raw : String), raw ≠ "" →
      loads (clean_json_string raw) = none →
      handleResponse loads (some raw) = RunOutcome.parseError raw) ∧
    parsedOutcome (Json.obj []) =
      RunOutcome.display (Json.str "분석 내용이 없습니다.") (Json.arr [])
        (Json.arr []) := by
  refine ⟨?_, ?_, rfl⟩
  · intro body hL hR hp hs
    exact ⟨cleanList_wrapFence body hL hR, cleanList_self body hL hR hp hs⟩
  · intro loads raw hne hl
    simp [handleResponse, hne, hl]

/-- Witness for the amended C3 theorem: the fenced and unfenced forms of
the body `[1, 2]` both clean to the body itself, and a failing parse of
the raw response `xyz` is reported as a parse error carrying `xyz`. -/
theorem json_contract_amended_witness :
    cleanList (wrapFence ("[1, 2]".data)) = "[1, 2]".data ∧
    cleanList ("[1, 2]".data) = "[1, 2]".data ∧
    handleResponse loadsNothing (some "xyz") = RunOutcome.parseError "xyz" := by
  have h := json_contract_amended
  obtain ⟨h1, h2⟩ := h.1 "[1, 2]".data (by decide) (by decide) (by decide) (by decide)
  exact ⟨h1, h2, h.2.1 loadsNothing "xyz" (by decide) rfl⟩
